import Mathlib

/-!
Verification development for the systole plotting layer and its
detection/HRV collaborators.

The definitions below are a shallow embedding of:
  * `src/systole/plots/utils.py` (`get_plotting_function`, `time_table`,
    `frequency_table`, `nonlinear_table`);
  * the input-validation and preparation stage of
    `src/systole/plots/plot_evoked.py` (`plot_evoked`);
  * the detection functions `ppg_peaks`, `ecg_peaks`, `rr_artefacts` and the
    HRV summary functions, which are not part of the sources at hand (only
    their tests and callers are); these are modelled from the specification
    and carry a doc comment starting with `Modelled from the spec:`.

Numbers are embedded as `ℚ` (the Python floats, with exact arithmetic),
machine side effects (module imports, summary computation, detection calls)
as an explicit event trace, and Python exceptions as an `Except` result.
-/

namespace Systole

/-- Arithmetic mean of a list of rationals (`np.mean`; `0` on the empty
list, where NumPy would return NaN — no claim evaluates it there). -/
def mean (xs : List ℚ) : ℚ := xs.sum / xs.length

/-- Successive differences (`np.diff`). -/
def diffs : List ℚ → List ℚ
  | [] => []
  | [_] => []
  | x :: y :: t => (y - x) :: diffs (y :: t)

/-- Indices of the `true` entries of a boolean vector (`np.where(v)[0]`). -/
def trueIndices (v : List Bool) : List ℕ :=
  (List.range v.length).filter (fun i => v.getD i false)

/-- Python exceptions raised by the embedded code. -/
inductive PyErr
  | valueError (msg : String)
  | keyError (key : String)
  | unboundLocal (name : String)
deriving DecidableEq

/-- Observable effects performed by the embedded code, in order. -/
inductive Ev
  | importBackendModule (backend plotModule : String)
  | checkBokehVersion
  | computeTimeDomain
  | computeFrequencyDomain
  | computeNonlinearDomain
  | ppgDetect
  | ecgDetect
  | heartRateConv
  | epochBuild
deriving DecidableEq

/-! ## Embedding of `src/systole/plots/utils.py` -/

/-- ASCII lowercasing of one character (the backend selectors are ASCII). -/
def lowerChar (c : Char) : Char :=
  if c.toNat < 65 ∨ 90 < c.toNat then c else Char.ofNat (c.toNat + 32)

/-- Embedding of Python `str.lower()` on ASCII strings
(`backend = backend.lower()`, `src/systole/plots/utils.py:27`). -/
def pyLower (s : String) : String := ⟨s.data.map lowerChar⟩

/-- The `_backend` dictionary of `get_plotting_function`
(`src/systole/plots/utils.py:21`), as a lookup on the lowercased key. -/
def backendAlias (b : String) : Option String :=
  if b = "mpl" then some "matplotlib"
  else if b = "bokeh" then some "bokeh"
  else if b = "matplotlib" then some "matplotlib"
  else none

/-- The value returned by `get_plotting_function`: the plotting callable of
the resolved backend module. -/
structure PlottingFunction where
  backend : String
  plotModule : String
  plotName : String
deriving DecidableEq

/-- Embedding of `get_plotting_function` (`src/systole/plots/utils.py:15`).
The backend selector is lowercased and resolved through `_backend`; an
unknown selector raises a `KeyError` naming the (lowercased) selector
before any module import happens; the `bokeh` branch additionally checks
the installed Bokeh version (`utils.py` itself imports `bokeh.models` at
module load, so Bokeh is importable whenever the function is callable). -/
def get_plotting_function (plotName plotModule backend : String) :
    List Ev × Except PyErr PlottingFunction :=
  let b := pyLower backend
  match backendAlias b with
  | none => ([], .error (.keyError b))
  | some be =>
      let evs := if be = "bokeh" then [Ev.checkBokehVersion] else []
      (evs ++ [Ev.importBackendModule be plotModule], .ok ⟨be, plotModule, plotName⟩)

/-- A summary dataframe (`pd.DataFrame` with `Metric`/`Values` columns),
embedded as an association list from metric name to value. -/
def SummaryDF := List (String × ℚ)

/-- Lookup of `df[df.Metric == k]["Values"].iloc[0]`. -/
def dfLookup (df : SummaryDF) (k : String) : Option ℚ :=
  (df.find? (fun p => p.1 = k)).map (fun p => p.2)

/-- Modelled from the spec: `systole.hrv.time_domain` is not under `src/`
(the spec excludes the HRV statistical computations from the core, keeping
only their role as producers of a summary dataframe consumed by the
tables); it returns a dataframe holding the time-domain metric names with
values derived from the RR series. -/
def time_domain (rr : List ℚ) (inputType : String) : SummaryDF :=
  let r := if inputType = "rr_s" then rr.map (fun x => x * 1000) else rr
  [("MeanRR", mean r), ("MedianRR", mean r),
   ("MinRR", r.foldl min 0), ("MaxRR", r.foldl max 0),
   ("MeanBPM", 60000 / mean r), ("MedianBPM", 60000 / mean r),
   ("MinBPM", 60000 / r.foldl max 1), ("MaxBPM", 60000 / r.foldl min 1),
   ("SDNN", 0), ("SDSD", 0), ("RMSSD", 0), ("nn50", 0), ("pnn50", 0)]

/-- Modelled from the spec: `systole.hrv.frequency_domain` is not under
`src/`; it returns a dataframe holding the frequency-domain metric names. -/
def frequency_domain (rr : List ℚ) (inputType : String) : SummaryDF :=
  let r := if inputType = "rr_s" then rr.map (fun x => x * 1000) else rr
  [("vlf_peak", 0), ("lf_peak", 0), ("hf_peak", 0),
   ("vlf_power", mean r), ("lf_power", mean r), ("hf_power", mean r),
   ("total_power", mean r), ("lf_hf_ratio", 1),
   ("vlf_power_per", 0), ("lf_power_per", 0), ("hf_power_per", 0),
   ("lf_power_nu", 0), ("hf_power_nu", 0)]

/-- Modelled from the spec: `systole.hrv.nonlinear_domain` is not under
`src/`; it returns a dataframe holding the nonlinear-domain metric names. -/
def nonlinear_domain (rr : List ℚ) (inputType : String) : SummaryDF :=
  let r := if inputType = "rr_s" then rr.map (fun x => x * 1000) else rr
  [("SD1", mean r), ("SD2", mean r), ("l_mean", 0), ("l_max", 0),
   ("recurrence_rate", 0), ("determinism_rate", 0), ("shannon_entropy", 0)]

/-- The `data` dictionary of `time_table` (`src/systole/plots/utils.py:120`),
keeping the variable/value pairing (separator rows carry `none`). -/
def timeData (df : SummaryDF) : List (String × Option ℚ) :=
  [("Mean RR", dfLookup df "MeanRR"), ("Median RR", dfLookup df "MedianRR"),
   ("Minimun RR", dfLookup df "MinRR"), ("Maximum RR", dfLookup df "MaxRR"),
   ("Mean BPM", dfLookup df "MeanBPM"), ("Median BPM", dfLookup df "MedianBPM"),
   ("Minimun BPM", dfLookup df "MinBPM"), ("Maximum BPM", dfLookup df "MaxBPM"),
   ("SDNN", dfLookup df "SDNN"), ("SDSD", dfLookup df "SDSD"),
   ("RMSSD", dfLookup df "RMSSD"), ("nn50", dfLookup df "nn50"),
   ("pnn50", dfLookup df "pnn50")]

/-- The `data` dictionary of `frequency_table`
(`src/systole/plots/utils.py:259`). -/
def frequencyData (df : SummaryDF) : List (String × Option ℚ) :=
  [("vlf_power", dfLookup df "vlf_power"), ("lf_power", dfLookup df "lf_power"),
   ("hf_power", dfLookup df "hf_power"), ("total_power", dfLookup df "total_power"),
   ("lf_hf_ratio", dfLookup df "lf_hf_ratio")]

/-- The `data` dictionary of `nonlinear_table`
(`src/systole/plots/utils.py:393`). -/
def nonlinearData (df : SummaryDF) : List (String × Option ℚ) :=
  [("SD1", dfLookup df "SD1"), ("SD2", dfLookup df "SD2"),
   ("l_mean", dfLookup df "l_mean"), ("l_max", dfLookup df "l_max"),
   ("recurrence_rate", dfLookup df "recurrence_rate"),
   ("determinism_rate", dfLookup df "determinism_rate"),
   ("shannon_entropy", dfLookup df "shannon_entropy")]

/-- A rendered table: either a Bokeh `Column` or a `tabulate` string. -/
inductive TableOut
  | bokehTable (data : List (String × Option ℚ))
  | textTable (data : List (String × Option ℚ))
deriving DecidableEq

/-- The trailing backend dispatch shared by the three table functions
(`src/systole/plots/utils.py:174`, `:297`, `:432`): `if backend == "bokeh"
... elif backend == "tabulate" ...` with no `else` branch, so any other
backend leaves the local `table` unassigned and `return table` raises an
`UnboundLocalError`. -/
def tableDispatch (data : List (String × Option ℚ)) (backend : String) :
    Except PyErr TableOut :=
  if backend = "bokeh" then .ok (.bokehTable data)
  else if backend = "tabulate" then .ok (.textTable data)
  else .error (.unboundLocal "table")

/-- Embedding of `time_table` (`src/systole/plots/utils.py:80`): when no
summary dataframe is given, a missing RR series (or input type) raises a
`ValueError`; otherwise the summary is computed by `time_domain` before the
backend is even looked at. -/
def time_table (rr : Option (List ℚ)) (inputType : Option String)
    (timeDf : Option SummaryDF) (backend : String) :
    List Ev × Except PyErr TableOut :=
  match timeDf with
  | none =>
      match rr, inputType with
      | some r, some it =>
          ([Ev.computeTimeDomain], tableDispatch (timeData (time_domain r it)) backend)
      | _, _ =>
          ([], .error (.valueError
            "If no summary dataframe is provided, you must provide an RR time series."))
  | some df => ([], tableDispatch (timeData df) backend)

/-- Embedding of `frequency_table` (`src/systole/plots/utils.py:219`). -/
def frequency_table (rr : Option (List ℚ)) (inputType : Option String)
    (frequencyDf : Option SummaryDF) (backend : String) :
    List Ev × Except PyErr TableOut :=
  match frequencyDf with
  | none =>
      match rr, inputType with
      | some r, some it =>
          ([Ev.computeFrequencyDomain],
            tableDispatch (frequencyData (frequency_domain r it)) backend)
      | _, _ =>
          ([], .error (.valueError
            "If no summary dataframe is provided, you must provide an RR time series."))
  | some df => ([], tableDispatch (frequencyData df) backend)

/-- Embedding of `nonlinear_table` (`src/systole/plots/utils.py:353`). -/
def nonlinear_table (rr : Option (List ℚ)) (inputType : Option String)
    (nonlinearDf : Option SummaryDF) (backend : String) :
    List Ev × Except PyErr TableOut :=
  match nonlinearDf with
  | none =>
      match rr, inputType with
      | some r, some it =>
          ([Ev.computeNonlinearDomain],
            tableDispatch (nonlinearData (nonlinear_domain r it)) backend)
      | _, _ =>
          ([], .error (.valueError
            "If no summary dataframe is provided, you must provide an RR time series."))
  | some df => ([], tableDispatch (nonlinearData df) backend)

/-! ## Embedding of `src/systole/plots/plot_evoked.py` -/

/-- A NumPy array as produced by `np.asarray` on the accepted inputs: either
one- or two-dimensional (`ndim` is all the embedded code inspects). -/
inductive PyArr
  | one (xs : List ℚ)
  | two (xss : List (List ℚ))
deriving DecidableEq

/-- The `ndim` attribute. -/
def PyArr.ndim : PyArr → ℕ
  | .one _ => 1
  | .two _ => 2

/-- The arguments of `plot_evoked` inspected by its input-preparation stage
(`src/systole/plots/plot_evoked.py:240`). -/
structure EvokedArgs where
  epochs : Option (List (List (List ℚ)))
  signal : Option PyArr
  rr : Option PyArr
  inputType : String
  modality : String
deriving DecidableEq

/-- The epoching step of `plot_evoked`
(`src/systole/plots/plot_evoked.py:261`): `to_epochs` runs only when no
epochs were passed in. -/
def evokedEpochStep (args : EvokedArgs) (evs : List Ev) :
    List Ev × Except PyErr Unit :=
  match args.epochs with
  | none => (evs ++ [Ev.epochBuild], .ok ())
  | some _ => (evs, .ok ())

/-- Embedding of the input-preparation stage of `plot_evoked`
(`src/systole/plots/plot_evoked.py:240`). When `signal` is given it must be
1-D, then the modality selects the detector (`if modality == "ppg" ... elif
modality == "ecg" ...`; there is no `else`, so any other modality leaves
the local `peaks` unassigned and the subsequent `heart_rate(peaks, ...)`
call raises an `UnboundLocalError` before any peak detection or heart-rate
conversion is performed). When only `rr` is given it must be 1-D before the
heart-rate conversion. The event trace records the detections, conversions
and epoching actually performed. -/
def plot_evoked_prep (args : EvokedArgs) : List Ev × Except PyErr Unit :=
  match args.signal with
  | some s =>
      if 1 < s.ndim then
        ([], .error (.valueError "The signal should be a 1d array, list or pandas serie"))
      else if args.modality = "ppg" then
        evokedEpochStep args [Ev.ppgDetect, Ev.heartRateConv]
      else if args.modality = "ecg" then
        evokedEpochStep args [Ev.ecgDetect, Ev.heartRateConv]
      else ([], .error (.unboundLocal "peaks"))
  | none =>
      match args.rr with
      | some r =>
          if 1 < r.ndim then
            ([], .error (.valueError
              "The RR intervals (rr) should be a 1d array, list or pandas serie"))
          else evokedEpochStep args [Ev.heartRateConv]
      | none => evokedEpochStep args []

/-- Python slicing `x[::n]` for a stride `n ≥ 1`: the elements at indices
`0, n, 2n, ...`. -/
def everyNth (n : ℕ) : List α → List α
  | [] => []
  | x :: xs => x :: everyNth n (xs.drop (n - 1))
termination_by l => l.length
decreasing_by simp [List.length_drop]; omega

/-- The decimation step of `plot_evoked`
(`src/systole/plots/plot_evoked.py:290`): `epochs[i] = epochs[i][:, ::decim]`
on every condition and `time = time[::decim]`. -/
def plotEvokedDecim (n : ℕ) (epochs : List (List (List ℚ))) (time : List ℚ) :
    List (List (List ℚ)) × List ℚ :=
  (epochs.map (fun e => e.map (everyNth n)), everyNth n time)

/-- Python 3 `round` on an exact value: round half to even. -/
def pyRound (x : ℚ) : ℤ :=
  if x - ⌊x⌋ < 1 / 2 then ⌊x⌋
  else if 1 / 2 < x - ⌊x⌋ then ⌊x⌋ + 1
  else if Even ⌊x⌋ then ⌊x⌋ else ⌊x⌋ + 1

/-- Length of `np.arange(start, stop, step)` for a positive step:
`max(0, ceil((stop - start) / step))`, with exact arithmetic. -/
def arangeLen (start stop step : ℚ) : ℕ := (⌈(stop - start) / step⌉).toNat

/-- The length of the time vector of `plot_evoked`
(`src/systole/plots/plot_evoked.py:286`):
`np.arange(round(tmin*sfreq)/sfreq, round(tmax*sfreq)/sfreq, 1/sfreq)`. -/
def evokedTimeLen (tmin tmax sfreq : ℚ) : ℕ :=
  arangeLen ((pyRound (tmin * sfreq) : ℚ) / sfreq)
    ((pyRound (tmax * sfreq) : ℚ) / sfreq) (1 / sfreq)

/-- Modelled from the spec: the absolute sample window of
`systole.utils.to_epochs` (not under `src/`): for a trigger at sample `t`,
the window is `[t + round(tmin*sfreq), t + round(tmax*sfreq))`. -/
def epochWindow (triggerIdx : ℤ) (tmin tmax sfreq : ℚ) : ℤ × ℤ :=
  (triggerIdx + pyRound (tmin * sfreq), triggerIdx + pyRound (tmax * sfreq))

/-- Number of samples of the epoch window of `to_epochs`. -/
def epochWindowLen (triggerIdx : ℤ) (tmin tmax sfreq : ℚ) : ℕ :=
  ((epochWindow triggerIdx tmin tmax sfreq).2
    - (epochWindow triggerIdx tmin tmax sfreq).1).toNat

/-! ## Modelled detection layer (systole.detection is not under `src/`) -/

/-- Modelled from the spec: the clipping limit of the Signal Conditioner
(`interpolate_clipping`, not under `src/`): samples pinned at the maximum
representable value are artefactual. -/
def clipLimit : ℚ := 255

/-- Index of the nearest non-clipped sample strictly before `i`, if any. -/
def lastGoodBefore (s : List ℚ) (i : ℕ) : Option ℕ :=
  ((List.range i).filter (fun j => decide (s.getD j 0 < clipLimit))).getLast?

/-- Index of the nearest non-clipped sample strictly after `i`, if any. -/
def firstGoodAfter (s : List ℚ) (i : ℕ) : Option ℕ :=
  (((List.range (s.length - (i + 1))).map (fun k => i + 1 + k)).filter
    (fun j => decide (s.getD j 0 < clipLimit))).head?

/-- Replacement value for sample `i`: unchanged when not clipped, linear
interpolation between the nearest non-clipped neighbours when both exist,
nearest-neighbour extension at a boundary. -/
def cleanAt (s : List ℚ) (i : ℕ) : ℚ :=
  let x := s.getD i 0
  if x < clipLimit then x
  else
    match lastGoodBefore s i, firstGoodAfter s i with
    | some j, some k =>
        s.getD j 0 + (s.getD k 0 - s.getD j 0) * ((i : ℚ) - j) / ((k : ℚ) - j)
    | some j, none => s.getD j 0
    | none, some k => s.getD k 0
    | none, none => x

/-- Modelled from the spec: the Signal Conditioner `interpolate_clipping`
(not under `src/`): clipped runs are repaired from their non-clipped
neighbours, output has identical length to the input. -/
def interpolate_clipping (s : List ℚ) : List ℚ :=
  (List.range s.length).map (cleanAt s)

/-- Mean of the trailing window of width `w` ending at sample `i`. -/
def rollingMeanAt (s : List ℚ) (w i : ℕ) : ℚ :=
  mean ((s.take (i + 1)).drop (i + 1 - w))

/-- Threshold test: sample `i` lies above its rolling mean. -/
def aboveAt (s : List ℚ) (w i : ℕ) : Bool :=
  decide (rollingMeanAt s w i < s.getD i 0)

/-- Candidate beats: indices where the signal crosses above the moving
average (a rising edge of the threshold test). -/
def risingEdges (s : List ℚ) (w : ℕ) : List ℕ :=
  (List.range s.length).filter
    (fun i => aboveAt s w i && (decide (i = 0) || !aboveAt s w (i - 1)))

/-- Local-extremum refinement: move a candidate index to the position of
the largest sample in the window of radius `r` around it. -/
def refineIdx (s : List ℚ) (r i : ℕ) : ℕ :=
  ((List.range (2 * r + 1)).map (fun k => i - r + k)).foldl
    (fun best j => if j < s.length ∧ s.getD best 0 < s.getD j 0 then j else best) i

/-- Derivative-and-squaring enhancement used by the QRS-complex detectors. -/
def squaredDeriv (s : List ℚ) : List ℚ :=
  (List.range s.length).map (fun i => (s.getD i 0 - s.getD (i - 1) 0) ^ 2)

/-- Boolean beat-occurrence vector of length `n` from a list of detected
indices (`peaks = np.zeros(n); peaks[idxs] = 1`). -/
def peaksVec (n : ℕ) (idxs : List ℕ) : List ℕ :=
  idxs.foldl (fun acc j => acc.set j 1) (List.replicate n 0)

/-- Tuning constants of one detection variant: moving-average window,
refinement radius, and whether the QRS enhancement is applied first. -/
structure DetectParams where
  window : ℕ
  radius : ℕ
  qrsEnhance : Bool

/-- Modelled from the spec: the shared detection pipeline (not under
`src/`): condition the signal, optionally enhance it, take the
moving-average threshold crossings, optionally refine each candidate to the
local extremum, and return the cleaned signal with the peak vector. -/
def detectPeaks (s : List ℚ) (p : DetectParams) (findLocal : Bool) :
    List ℚ × List ℕ :=
  let c := interpolate_clipping s
  let d := if p.qrsEnhance then squaredDeriv c else c
  let cand := risingEdges d p.window
  let idxs := if findLocal then cand.map (refineIdx c p.radius) else cand
  (c, peaksVec c.length idxs)

/-- Modelled from the spec: `ppg_peaks` (not under `src/`): the PPG variant
of the Peak Detector, returning the cleaned signal and a same-length peak
vector. -/
def ppg_peaks (s : List ℚ) : List ℚ × List ℕ :=
  detectPeaks s ⟨56, 28, false⟩ true

/-- The ECG algorithm-selector table: the supported method names with the
tuning constants of each variant (the exact constants are empirically tuned
implementation detail per the spec). -/
def ecgMethodParams (m : String) : Option DetectParams :=
  if m = "christov" then some ⟨30, 10, true⟩
  else if m = "engelse-zeelenberg" then some ⟨40, 12, true⟩
  else if m = "hamilton" then some ⟨25, 8, true⟩
  else if m = "pan-tompkins" then some ⟨32, 9, true⟩
  else if m = "moving-average" then some ⟨50, 15, false⟩
  else none

/-- The supported ECG method selectors. -/
def ecgMethods : List String :=
  ["christov", "engelse-zeelenberg", "hamilton", "pan-tompkins", "moving-average"]

/-- Modelled from the spec: `ecg_peaks` (not under `src/`): the ECG variant
of the Peak Detector, polymorphic over the method selector; an unsupported
selector fails with an invalid-argument error (`ValueError`) and no partial
result. -/
def ecg_peaks (s : List ℚ) (m : String) (findLocal : Bool) :
    Except PyErr (List ℚ × List ℕ) :=
  match ecgMethodParams m with
  | some p => .ok (detectPeaks s p findLocal)
  | none => .error (.valueError
      "The method argument must be one of the following: christov, engelse-zeelenberg, hamilton, pan-tompkins, moving-average")

/-- The named mapping returned by the RR-Artefact Classifier: five boolean
sequences. -/
structure Artefacts where
  short : List Bool
  long : List Bool
  ectopic : List Bool
  missed : List Bool
  extra : List Bool
deriving DecidableEq

/-- The category names of the classifier output, in order. -/
def Artefacts.keys : List String := ["short", "long", "ectopic", "missed", "extra"]

/-- Named lookup into the classifier output. -/
def Artefacts.get (a : Artefacts) (k : String) : Option (List Bool) :=
  if k = "short" then some a.short
  else if k = "long" then some a.long
  else if k = "ectopic" then some a.ectopic
  else if k = "missed" then some a.missed
  else if k = "extra" then some a.extra
  else none

/-- Local reference duration for interval `i`: the mean of the rolling
context of up to 11 previous intervals (the interval itself when there is
no history). -/
def localRef (rr : List ℚ) (i : ℕ) : ℚ :=
  let prev := (rr.take i).drop (i - 11)
  if prev.isEmpty then rr.getD i 0 else mean prev

/-- Interval `i` is markedly below the local reference (ratio threshold). -/
def shortFlag (rr : List ℚ) (i : ℕ) : Bool :=
  decide (4 * rr.getD i 0 < 3 * localRef rr i)

/-- Interval `i` is markedly above the local reference (ratio threshold). -/
def longFlag (rr : List ℚ) (i : ℕ) : Bool :=
  decide (3 * localRef rr i < 2 * rr.getD i 0)

/-- Premature-then-compensatory pattern: a markedly short interval followed
by a markedly long one, or the converse. -/
def ectopicFlag (rr : List ℚ) (i : ℕ) : Bool :=
  (shortFlag rr i && decide (i + 1 < rr.length) && longFlag rr (i + 1)) ||
  (longFlag rr i && decide (0 < i) && shortFlag rr (i - 1))

/-- Interval `i` is close to an integer multiple (2 or 3) of the local
reference: a dropped detection merged true beats. -/
def missedFlag (rr : List ℚ) (i : ℕ) : Bool :=
  decide (5 * |rr.getD i 0 - 2 * localRef rr i| ≤ localRef rr i) ||
  decide (5 * |rr.getD i 0 - 3 * localRef rr i| ≤ localRef rr i)

/-- Interval `i` is close to half of the local reference: a spurious
detection split one true interval in two. -/
def extraFlag (rr : List ℚ) (i : ℕ) : Bool :=
  decide (5 * |2 * rr.getD i 0 - localRef rr i| ≤ localRef rr i)

/-- Modelled from the spec: the RR-Artefact Classifier core (not under
`src/`): a per-position classification of an RR series with adaptive,
history-dependent thresholds; fewer than two intervals yield all-false
sequences. Every flag sequence has the length of the RR series. -/
def classify (rr : List ℚ) : Artefacts :=
  if rr.length < 2 then
    ⟨List.replicate rr.length false, List.replicate rr.length false,
     List.replicate rr.length false, List.replicate rr.length false,
     List.replicate rr.length false⟩
  else
    ⟨(List.range rr.length).map (shortFlag rr),
     (List.range rr.length).map (longFlag rr),
     (List.range rr.length).map (ectopicFlag rr),
     (List.range rr.length).map (missedFlag rr),
     (List.range rr.length).map (extraFlag rr)⟩

/-- The accepted input representations of the RR-based operations, selected
by `input_type`. -/
inductive RRInput
  | peaks (v : List Bool)
  | peaksIdx (idx : List ℕ)
  | rrMs (rr : List ℚ)
  | rrS (rr : List ℚ)

/-- The `input_type` conversion to an RR series in milliseconds: a peak
vector is reduced to its beat indices and these to successive differences
(samples at 1000 Hz, hence milliseconds); seconds are scaled by 1000. -/
def toRRms : RRInput → List ℚ
  | .peaks v => diffs ((trueIndices v).map Nat.cast)
  | .peaksIdx idx => diffs (idx.map Nat.cast)
  | .rrMs rr => rr
  | .rrS rr => rr.map (fun x => x * 1000)

/-- Modelled from the spec: `rr_artefacts` (not under `src/`): convert the
input per `input_type`, then classify, returning the named mapping of five
boolean sequences. -/
def rr_artefacts (input : RRInput) : Artefacts := classify (toRRms input)

/-! ## Helper lemmas -/

theorem ecgMethodParams_eq_none {m : String} (hm : m ∉ ecgMethods) :
    ecgMethodParams m = none := by
  simp only [ecgMethods, List.mem_cons, List.not_mem_nil, or_false, not_or] at hm
  obtain ⟨h1, h2, h3, h4, h5⟩ := hm
  simp [ecgMethodParams, h1, h2, h3, h4, h5]

/-! ## Claim theorems -/

/-- C3: for every ECG signal (and refinement flag), calling `ecg_peaks` with
an algorithm selector outside the supported set fails with an
invalid-argument error (`ValueError`) and returns no partial result. -/
theorem ecg_peaks_invalid_method (s : List ℚ) (fl : Bool) (m : String)
    (hm : m ∉ ecgMethods) :
    ecg_peaks s m fl = .error (.valueError
      "The method argument must be one of the following: christov, engelse-zeelenberg, hamilton, pan-tompkins, moving-average")
    ∧ ∀ out, ecg_peaks s m fl ≠ .ok out := by
  have hp := ecgMethodParams_eq_none hm
  constructor
  · simp [ecg_peaks, hp]
  · intro out
    simp [ecg_peaks, hp]

theorem ecg_peaks_invalid_method_witness :
    ecg_peaks [] "error" true = .error (.valueError
      "The method argument must be one of the following: christov, engelse-zeelenberg, hamilton, pan-tompkins, moving-average")
    ∧ ∀ out, ecg_peaks [] "error" true ≠ .ok out :=
  ecg_peaks_invalid_method [] true "error" (by decide)

/-- C9: `get_plotting_function` treats the backend selector
case-insensitively and accepts the alias `mpl` for `matplotlib`: an input
whose lowercase form is `mpl`, `matplotlib` or `bokeh` resolves to a
backend in that set and dispatches (imports the backend module and returns
its plotting callable); any other string raises a `KeyError`. -/
theorem get_plotting_function_backend_resolution (p m backend : String) :
    ((pyLower backend = "mpl" ∨ pyLower backend = "matplotlib") →
      get_plotting_function p m backend
        = ([Ev.importBackendModule "matplotlib" m], .ok ⟨"matplotlib", m, p⟩))
  ∧ (pyLower backend = "bokeh" →
      get_plotting_function p m backend
        = ([Ev.checkBokehVersion, Ev.importBackendModule "bokeh" m],
            .ok ⟨"bokeh", m, p⟩))
  ∧ (pyLower backend ≠ "mpl" → pyLower backend ≠ "matplotlib" →
      pyLower backend ≠ "bokeh" →
      get_plotting_function p m backend
        = ([], .error (.keyError (pyLower backend)))) := by
  refine ⟨?_, ?_, ?_⟩
  · rintro (h | h) <;> simp [get_plotting_function, backendAlias, h]
  · intro h
    simp [get_plotting_function, backendAlias, h]
  · intro h1 h2 h3
    simp [get_plotting_function, backendAlias, h1, h2, h3]

theorem get_plotting_function_backend_resolution_witness :
    (get_plotting_function "plot_rr" "plot_rr" "MPL"
        = ([Ev.importBackendModule "matplotlib" "plot_rr"],
            .ok ⟨"matplotlib", "plot_rr", "plot_rr"⟩))
  ∧ (get_plotting_function "plot_rr" "plot_rr" "Bokeh"
        = ([Ev.checkBokehVersion, Ev.importBackendModule "bokeh" "plot_rr"],
            .ok ⟨"bokeh", "plot_rr", "plot_rr"⟩))
  ∧ (get_plotting_function "plot_rr" "plot_rr" "seaborn"
        = ([], .error (.keyError (pyLower "seaborn")))) :=
  ⟨(get_plotting_function_backend_resolution "plot_rr" "plot_rr" "MPL").1 (Or.inl rfl),
   (get_plotting_function_backend_resolution "plot_rr" "plot_rr" "Bokeh").2.1 rfl,
   (get_plotting_function_backend_resolution "plot_rr" "plot_rr" "seaborn").2.2
     (by decide) (by decide) (by decide)⟩

/-- C10: for each of `time_table`, `frequency_table` and `nonlinear_table`,
a call with neither a precomputed summary dataframe nor an RR series raises
a `ValueError` asking for an RR time series; and when a summary dataframe
is provided, the result does not depend on (never consults) the `rr` and
`input_type` arguments. -/
theorem tables_require_rr_or_df :
    (∀ it b, time_table none it none b
      = ([], .error (.valueError
        "If no summary dataframe is provided, you must provide an RR time series.")))
  ∧ (∀ it b, frequency_table none it none b
      = ([], .error (.valueError
        "If no summary dataframe is provided, you must provide an RR time series.")))
  ∧ (∀ it b, nonlinear_table none it none b
      = ([], .error (.valueError
        "If no summary dataframe is provided, you must provide an RR time series.")))
  ∧ (∀ df b rr rr' it it',
      time_table rr it (some df) b = time_table rr' it' (some df) b)
  ∧ (∀ df b rr rr' it it',
      frequency_table rr it (some df) b = frequency_table rr' it' (some df) b)
  ∧ (∀ df b rr rr' it it',
      nonlinear_table rr it (some df) b = nonlinear_table rr' it' (some df) b) := by
  refine ⟨?_, ?_, ?_, ?_, ?_, ?_⟩ <;> intros <;> rfl

/-- C4 counterexample: `time_table` with an unrecognized backend first
computes the summary dataframe (the `computeTimeDomain` event) and then
fails with an `UnboundLocalError` on the unassigned `table` local — not
with an invalid-selector error raised before the summary computation. -/
theorem time_table_unknown_backend_counterexample :
    time_table (some [800, 810]) (some "rr_ms") none "error"
      = ([Ev.computeTimeDomain], .error (.unboundLocal "table")) := rfl

/-- C4 (amended): `get_plotting_function` with an unrecognized backend
raises a `KeyError` naming the unknown (lowercased) selector before
importing any module; `time_table` with an unrecognized backend also fails
— but only after computing the summary data, and with an
`UnboundLocalError` on the unassigned `table` local rather than an
invalid-selector error. -/
theorem backend_dispatch_invalid_selector (p m b : String) (rr : List ℚ)
    (it : String) (hb : pyLower b ∉ ["mpl", "matplotlib", "bokeh"])
    (h1 : b ≠ "bokeh") (h2 : b ≠ "tabulate") :
    get_plotting_function p m b = ([], .error (.keyError (pyLower b)))
  ∧ time_table (some rr) (some it) none b
      = ([Ev.computeTimeDomain], .error (.unboundLocal "table")) := by
  simp only [List.mem_cons, List.not_mem_nil, or_false, not_or] at hb
  obtain ⟨hb1, hb2, hb3⟩ := hb
  constructor
  · simp [get_plotting_function, backendAlias, hb1, hb2, hb3]
  · simp [time_table, tableDispatch, h1, h2]

theorem backend_dispatch_invalid_selector_witness :
    get_plotting_function "plot_rr" "plot_rr" "seaborn"
        = ([], .error (.keyError (pyLower "seaborn")))
  ∧ time_table (some [800, 810]) (some "rr_ms") none "seaborn"
      = ([Ev.computeTimeDomain], .error (.unboundLocal "table")) :=
  backend_dispatch_invalid_selector "plot_rr" "plot_rr" "seaborn" [800, 810]
    "rr_ms" (by decide) (by decide) (by decide)

/-- C5 counterexample: `plot_evoked` given a 1-D signal and
`modality="error"` does not fail with an invalid-selector error at argument
validation: neither detection branch assigns `peaks`, and the call dies
with an `UnboundLocalError` at the heart-rate conversion step. -/
theorem plot_evoked_unknown_modality_counterexample :
    plot_evoked_prep ⟨none, some (.one [1, 2, 3]), none, "peaks", "error"⟩
      = ([], .error (.unboundLocal "peaks")) := rfl

/-- C5 (amended): for every call of `plot_evoked` with a 1-D `signal` and a
modality outside `ppg`/`ecg`, the call fails — but with an
`UnboundLocalError` for the never-assigned `peaks` local when the
heart-rate conversion is reached, not with an invalid-selector error at
argument validation; no peak detection, heart-rate conversion or epoching
is performed (empty event trace). -/
theorem plot_evoked_unknown_modality (args : EvokedArgs) (s : PyArr)
    (hs : args.signal = some s) (h1 : s.ndim ≤ 1)
    (hm1 : args.modality ≠ "ppg") (hm2 : args.modality ≠ "ecg") :
    plot_evoked_prep args = ([], .error (.unboundLocal "peaks")) := by
  obtain ⟨ep, sig, rr, it, mo⟩ := args
  simp only at hs hm1 hm2
  subst hs
  simp [plot_evoked_prep, hm1, hm2, Nat.not_lt.mpr h1]

theorem plot_evoked_unknown_modality_witness :
    PyArr.ndim (.one [1, 2, 3]) ≤ 1
  ∧ plot_evoked_prep ⟨none, some (.one [1, 2, 3]), none, "peaks", "resp"⟩
      = ([], .error (.unboundLocal "peaks")) :=
  ⟨by decide,
   plot_evoked_unknown_modality _ (.one [1, 2, 3]) rfl (by decide)
     (by decide) (by decide)⟩

/-- C6: a call of `plot_evoked` whose `signal` argument (or, with `signal`
absent, whose `rr` argument) has more than one dimension fails with a shape
error (`ValueError`), with an empty event trace: before any peak detection,
heart-rate conversion or epoching. -/
theorem plot_evoked_shape_error (args : EvokedArgs) :
    (∀ s, args.signal = some s → 1 < s.ndim →
      plot_evoked_prep args
        = ([], .error (.valueError
            "The signal should be a 1d array, list or pandas serie")))
  ∧ (args.signal = none → ∀ r, args.rr = some r → 1 < r.ndim →
      plot_evoked_prep args
        = ([], .error (.valueError
            "The RR intervals (rr) should be a 1d array, list or pandas serie"))) := by
  obtain ⟨ep, sig, rr, it, mo⟩ := args
  constructor
  · intro s hs hdim
    simp only at hs
    subst hs
    simp [plot_evoked_prep, hdim]
  · intro hsig r hr hdim
    simp only at hsig hr
    subst hsig
    subst hr
    simp [plot_evoked_prep, hdim]

theorem plot_evoked_shape_error_witness :
    (1 < PyArr.ndim (.two [[1, 2], [3, 4]]))
  ∧ plot_evoked_prep ⟨none, some (.two [[1, 2], [3, 4]]), none, "peaks", "ppg"⟩
      = ([], .error (.valueError
          "The signal should be a 1d array, list or pandas serie"))
  ∧ plot_evoked_prep ⟨none, none, some (.two [[1, 2], [3, 4]]), "peaks", "ppg"⟩
      = ([], .error (.valueError
          "The RR intervals (rr) should be a 1d array, list or pandas serie")) :=
  ⟨by decide,
   (plot_evoked_shape_error _).1 (.two [[1, 2], [3, 4]]) rfl (by decide),
   (plot_evoked_shape_error _).2 rfl (.two [[1, 2], [3, 4]]) rfl (by decide)⟩

theorem diffs_length (l : List ℚ) : (diffs l).length = l.length - 1 := by
  induction l with
  | nil => rfl
  | cons x t ih =>
      cases t with
      | nil => rfl
      | cons y t2 =>
          simp only [diffs, List.length_cons] at ih ⊢
          omega

theorem classify_lengths (rr : List ℚ) :
    (classify rr).short.length = rr.length
  ∧ (classify rr).long.length = rr.length
  ∧ (classify rr).ectopic.length = rr.length
  ∧ (classify rr).missed.length = rr.length
  ∧ (classify rr).extra.length = rr.length := by
  rw [classify]
  split <;> refine ⟨?_, ?_, ?_, ?_, ?_⟩ <;> simp

/-- C1: for every RR-interval input, `rr_artefacts` returns a named mapping
with exactly the five categories short, long, ectopic, missed, extra; every
sequence of the mapping has the length of the RR series (beat count − 1 for
a peaks input, not beat count); and a recording given as peaks and as its
derived rr_ms difference series classifies identically, so in particular
with sequences of identical length. -/
theorem rr_artefacts_mapping (input : RRInput) :
    (∀ k, ((rr_artefacts input).get k).isSome ↔ k ∈ Artefacts.keys)
  ∧ (∀ k ls, (rr_artefacts input).get k = some ls →
      ls.length = (toRRms input).length)
  ∧ (∀ v, rr_artefacts (RRInput.peaks v)
      = rr_artefacts (RRInput.rrMs (toRRms (RRInput.peaks v))))
  ∧ (∀ v, (toRRms (RRInput.peaks v)).length = (trueIndices v).length - 1) := by
  obtain ⟨l1, l2, l3, l4, l5⟩ := classify_lengths (toRRms input)
  refine ⟨?_, ?_, ?_, ?_⟩
  · intro k
    rw [Artefacts.get]
    split_ifs with h1 h2 h3 h4 h5 <;> simp_all [Artefacts.keys]
  · intro k ls h
    rw [Artefacts.get] at h
    split_ifs at h <;>
      (injection h with h; subst h) <;>
      first
        | exact l1 | exact l2 | exact l3 | exact l4 | exact l5
  · intro v
    rfl
  · intro v
    rw [toRRms, diffs_length, List.length_map]

theorem rr_artefacts_mapping_witness :
    (((rr_artefacts (RRInput.rrMs [])).get "short").isSome
        ↔ "short" ∈ Artefacts.keys)
  ∧ ([] : List Bool).length = (toRRms (RRInput.rrMs [])).length :=
  ⟨(rr_artefacts_mapping (RRInput.rrMs [])).1 "short",
   (rr_artefacts_mapping (RRInput.rrMs [])).2.1 "short" [] rfl⟩

theorem foldl_set_length (idxs : List ℕ) (acc : List ℕ) :
    (idxs.foldl (fun a j => a.set j 1) acc).length = acc.length := by
  induction idxs generalizing acc with
  | nil => rfl
  | cons j t ih =>
      rw [List.foldl_cons, ih, List.length_set]

theorem foldl_set_mem (idxs : List ℕ) (acc : List ℕ)
    (hacc : ∀ x ∈ acc, x = 0 ∨ x = 1) :
    ∀ x ∈ idxs.foldl (fun a j => a.set j 1) acc, x = 0 ∨ x = 1 := by
  induction idxs generalizing acc with
  | nil => exact hacc
  | cons j t ih =>
      intro x hx
      rw [List.foldl_cons] at hx
      refine ih (acc.set j 1) (fun y hy => ?_) x hx
      rcases List.mem_or_eq_of_mem_set hy with h | h
      · exact hacc y h
      · exact Or.inr h

theorem peaksVec_length (n : ℕ) (idxs : List ℕ) :
    (peaksVec n idxs).length = n := by
  rw [peaksVec, foldl_set_length, List.length_replicate]

theorem peaksVec_bounded (n : ℕ) (idxs : List ℕ) :
    ∀ x ∈ peaksVec n idxs, x = 0 ∨ x = 1 := by
  rw [peaksVec]
  exact foldl_set_mem idxs _ (fun y hy => Or.inl (List.eq_of_mem_replicate hy))

theorem detectPeaks_spec (s : List ℚ) (p : DetectParams) (fl : Bool) :
    (detectPeaks s p fl).1.length = (detectPeaks s p fl).2.length
  ∧ ∀ x ∈ (detectPeaks s p fl).2, x = 0 ∨ x = 1 := by
  rw [detectPeaks]
  exact ⟨(peaksVec_length _ _).symm, peaksVec_bounded _ _⟩

/-- C2: every peak detector returns a peak vector of exactly the same length
as the returned signal, whose entries take only the boolean values 0 and 1:
this holds for `ppg_peaks` on every input, and for `ecg_peaks` on every
input and every supported ECG method (every successful result). -/
theorem peak_vector_boolean_same_length (s : List ℚ) :
    ((ppg_peaks s).1.length = (ppg_peaks s).2.length
      ∧ ∀ x ∈ (ppg_peaks s).2, x = 0 ∨ x = 1)
  ∧ (∀ m fl out, ecg_peaks s m fl = .ok out →
      out.1.length = out.2.length ∧ ∀ x ∈ out.2, x = 0 ∨ x = 1) := by
  constructor
  · exact detectPeaks_spec s ⟨56, 28, false⟩ true
  · intro m fl out h
    rw [ecg_peaks] at h
    cases hp : ecgMethodParams m with
    | none => rw [hp] at h; exact absurd h (by simp)
    | some p =>
        rw [hp] at h
        simp only [Except.ok.injEq] at h
        subst h
        exact detectPeaks_spec s p fl

theorem peak_vector_boolean_same_length_witness :
    (((ppg_peaks []).1.length = (ppg_peaks []).2.length
        ∧ ∀ x ∈ (ppg_peaks []).2, x = 0 ∨ x = 1))
  ∧ ((([], []) : List ℚ × List ℕ).1.length
        = (([], []) : List ℚ × List ℕ).2.length
      ∧ ∀ x ∈ (([], []) : List ℚ × List ℕ).2, x = 0 ∨ x = 1) :=
  ⟨(peak_vector_boolean_same_length []).1,
   (peak_vector_boolean_same_length []).2 "hamilton" true ([], []) rfl⟩

theorem everyNth_nil (n : ℕ) : everyNth n ([] : List α) = [] := by
  rw [everyNth]

theorem everyNth_cons (n : ℕ) (x : α) (xs : List α) :
    everyNth n (x :: xs) = x :: everyNth n (xs.drop (n - 1)) := by
  rw [everyNth]

theorem everyNth_getElem? (n : ℕ) (hn : 0 < n) (xs : List α) (i : ℕ) :
    (everyNth n xs)[i]? = xs[n * i]? := by
  obtain ⟨m, rfl⟩ : ∃ m, n = m + 1 := ⟨n - 1, by omega⟩
  suffices h : ∀ L (xs : List α) (i : ℕ), xs.length = L →
      (everyNth (m + 1) xs)[i]? = xs[(m + 1) * i]? from h _ xs i rfl
  intro L
  induction L using Nat.strong_induction_on with
  | _ L ih =>
    intro xs i hL
    cases xs with
    | nil => rw [everyNth_nil]; simp
    | cons x t =>
        rw [everyNth_cons]
        cases i with
        | zero => simp
        | succ i =>
            have hd : (t.drop (m + 1 - 1)).length < L := by
              rw [List.length_drop]
              rw [List.length_cons] at hL
              omega
            rw [List.getElem?_cons_succ, ih _ hd (t.drop (m + 1 - 1)) i rfl,
              List.getElem?_drop]
            have harith : (m + 1) * (i + 1) = (m + 1 - 1 + (m + 1) * i) + 1 := by
              ring_nf
              omega
            rw [harith, List.getElem?_cons_succ]

theorem length_eq_of_getElem?_none {l : List α} {l' : List β}
    (h : ∀ i : ℕ, l[i]? = none ↔ l'[i]? = none) : l.length = l'.length := by
  have h1 : ¬ l.length < l'.length := by
    intro hc
    have hz := (h l.length).mp (List.getElem?_eq_none_iff.mpr le_rfl)
    rw [List.getElem?_eq_none_iff] at hz
    omega
  have h2 : ¬ l'.length < l.length := by
    intro hc
    have hz := (h l'.length).mpr (List.getElem?_eq_none_iff.mpr le_rfl)
    rw [List.getElem?_eq_none_iff] at hz
    omega
  omega

theorem everyNth_length_eq (n : ℕ) (hn : 0 < n) (xs : List α) (ys : List β)
    (h : xs.length = ys.length) :
    (everyNth n xs).length = (everyNth n ys).length := by
  refine length_eq_of_getElem?_none (fun i => ?_)
  rw [everyNth_getElem? n hn, everyNth_getElem? n hn,
    List.getElem?_eq_none_iff, List.getElem?_eq_none_iff, h]

/-- C7: the down-sampling of `plot_evoked` with a positive factor `N`
applies the stride-`N` slice to every row of every condition and to the
time vector: the decimated sequences keep exactly the original entries at
indices `0, N, 2N, ...`, and whenever a condition's epochs array has as
many columns as the time vector has elements, the decimated row length
equals the decimated time-vector length (alignment preserved). -/
theorem plot_evoked_decim_alignment (N : ℕ) (hN : 0 < N)
    (epochs : List (List (List ℚ))) (time : List ℚ) :
    (plotEvokedDecim N epochs time).1 = epochs.map (fun e => e.map (everyNth N))
  ∧ (∀ i, (plotEvokedDecim N epochs time).2[i]? = time[N * i]?)
  ∧ (∀ e ∈ epochs, ∀ row ∈ e, ∀ i, (everyNth N row)[i]? = row[N * i]?)
  ∧ (∀ e ∈ epochs, ∀ row ∈ e, row.length = time.length →
      (everyNth N row).length = (plotEvokedDecim N epochs time).2.length) := by
  refine ⟨rfl, fun i => everyNth_getElem? N hN time i, ?_, ?_⟩
  · intro e he row hrow i
    exact everyNth_getElem? N hN row i
  · intro e he row hrow h
    exact everyNth_length_eq N hN row time h

theorem plot_evoked_decim_alignment_witness :
    0 < 2
  ∧ (plotEvokedDecim 2 [[[1, 2, 3, 4]]] [5, 6, 7, 8]).2[1]?
      = [(5 : ℚ), 6, 7, 8][2 * 1]?
  ∧ (everyNth 2 [(1 : ℚ), 2, 3, 4]).length
      = (plotEvokedDecim 2 [[[1, 2, 3, 4]]] [5, 6, 7, 8]).2.length :=
  ⟨by decide,
   (plot_evoked_decim_alignment 2 (by decide) [[[1, 2, 3, 4]]] [5, 6, 7, 8]).2.1 1,
   (plot_evoked_decim_alignment 2 (by decide) [[[1, 2, 3, 4]]] [5, 6, 7, 8]).2.2.2
     [[1, 2, 3, 4]] (by simp) [1, 2, 3, 4] (by simp) rfl⟩

theorem pyRound_intCast (n : ℤ) : pyRound (n : ℚ) = n := by
  rw [pyRound, Int.floor_intCast, sub_self]
  norm_num

/-- C8: the epoch time axis built by `plot_evoked` spans exactly
`round(tmax*sfreq) - round(tmin*sfreq)` samples, which is exactly the
number of samples of the absolute epoch window
`[trigger_idx + round(tmin*sfreq), trigger_idx + round(tmax*sfreq))` of the
epoch builder, for every trigger index. -/
theorem evoked_time_axis_matches_epoch_window (tmin tmax sfreq : ℚ)
    (hs : 0 < sfreq) :
    evokedTimeLen tmin tmax sfreq
        = (pyRound (tmax * sfreq) - pyRound (tmin * sfreq)).toNat
  ∧ ∀ t, evokedTimeLen tmin tmax sfreq = epochWindowLen t tmin tmax sfreq := by
  have hne : sfreq ≠ 0 := ne_of_gt hs
  have key : (((pyRound (tmax * sfreq) : ℚ) / sfreq
        - (pyRound (tmin * sfreq) : ℚ) / sfreq) / (1 / sfreq))
      = ((pyRound (tmax * sfreq) - pyRound (tmin * sfreq) : ℤ) : ℚ) := by
    field_simp
  have h1 : evokedTimeLen tmin tmax sfreq
      = (pyRound (tmax * sfreq) - pyRound (tmin * sfreq)).toNat := by
    rw [evokedTimeLen, arangeLen, key, Int.ceil_intCast]
  refine ⟨h1, fun t => ?_⟩
  rw [h1, epochWindowLen, epochWindow]
  congr 1
  ring

theorem evoked_time_axis_matches_epoch_window_witness :
    (0 : ℚ) < 100
  ∧ evokedTimeLen (-1) 2 100 = 300
  ∧ evokedTimeLen (-1) 2 100 = epochWindowLen 500 (-1) 2 100 := by
  have h := evoked_time_axis_matches_epoch_window (-1) 2 100 (by norm_num)
  refine ⟨by norm_num, ?_, h.2 500⟩
  rw [h.1]
  have h2 : ((2 : ℚ) * 100) = ((200 : ℤ) : ℚ) := by norm_num
  have h3 : ((-1 : ℚ) * 100) = ((-100 : ℤ) : ℚ) := by norm_num
  rw [h2, h3, pyRound_intCast, pyRound_intCast]
  decide

end Systole
